import Mathlib

/-!
Verification development for the `dependency_injection` library
(`dependency_injection.py`): a shallow embedding of `get_signature` and
`resolve_dependencies`, followed by theorems about the spec's claims.

Modelling conventions:
* Python runtime values are `Value`; `Value.none` is Python's `None`
  object, while `Option.none` in the model means *absence* (the role the
  fresh `missing = object()` sentinel plays in the source loop).
* Python dicts are association lists.  Assignment appends a binding and
  lookup takes the *last* binding for a key (`dget`), matching dict
  update semantics; key membership (`name in d`) is `(dget d k).isSome`.
* Python slices with possibly-negative indices (`parameters[:nrequired]`
  with `nrequired = -len(values)`) are modelled exactly, including the
  `-0 == 0` corner (`xs[:-0] == xs[:0] == []`).
-/

/-- A Python runtime value, as far as this library inspects one: `None`,
booleans, integers and strings.  Defaults and injected dependencies are
opaque to the library, so this carrier is enough for every claim. -/
inductive Value where
  | none
  | bool (b : Bool)
  | int (i : Int)
  | str (s : String)
deriving DecidableEq, Repr

/-- The fields of a code object that `get_signature` reads:
`co_varnames` (parameters first, then local variables) and
`co_argcount` (how many leading varnames are parameters). -/
structure Code where
  co_varnames : List String
  co_argcount : Nat
deriving DecidableEq, Repr

/-- A function-like object carrying `__code__` and `__defaults__`.
`defaults = Option.none` models `__defaults__ is None` (a `def` with no
defaulted parameters); `some vs` models a defaults tuple `vs`. -/
structure FuncObj where
  code : Code
  defaults : Option (List Value)
deriving DecidableEq, Repr

/-- The value of an attribute (`__init__`, `__new__`, `__call__`) as the
source inspects it: either it carries a code object or it does not.
The source only ever asks `hasattr(obj, '__code__')` of these and then
reads `__code__`/`__defaults__`, so this quotient is faithful. -/
inductive PyAttr where
  | hasCode (f : FuncObj)
  | noCode (v : Value)
deriving DecidableEq, Repr

/-- An input to `get_signature`, classified the way the source's dispatch
chain observes it:
* `withCode f`: the object itself has `__code__` (function, method);
* `classy init new`: `type(obj)` is in `CLASSY_TYPES` (a class), with its
  `__init__` and `__new__` attributes (absent = `Option.none`);
* `withCall c`: no `__code__`, not a class, but has `__call__ = c`;
* `plain v`: none of the above (e.g. a plain non-callable value). -/
inductive PyObj where
  | withCode (f : FuncObj)
  | classy (init : Option PyAttr) (new : Option PyAttr)
  | withCall (call : PyAttr)
  | plain (v : Value)
deriving DecidableEq, Repr

/-- Exceptions the embedded code can raise: `CantUseThis` (the library's
own error, carrying the offending object) and Python's builtin
`AttributeError` (raised when reading a missing attribute). -/
inductive PyError where
  | cantUseThis (obj : PyObj)
  | attributeError (attr : String)
deriving DecidableEq, Repr

/-- The namedtuple `Signature(parameters, required, optional)`. -/
structure Signature where
  parameters : List String
  required : List String
  optional : List (String × Value)
deriving DecidableEq, Repr

/-- The namedtuple `Dependencies(as_args, as_kwargs, signature)`. -/
structure Dependencies where
  as_args : List Value
  as_kwargs : List (String × Value)
  signature : Signature
deriving DecidableEq, Repr

/-- Dict lookup: the value of the *last* binding for the key, or absent.
An assoc list built by repeated `d[k] = v` assignments (or `dict(zip ...)`
with duplicate keys) has exactly this lookup behaviour. -/
def dget : List (String × Value) → String → Option Value
  | [], _ => Option.none
  | (k, v) :: rest, key =>
    match dget rest key with
    | some v' => some v'
    | Option.none => if key = k then some v else Option.none

/-- Normalise a Python slice index against a sequence of length `n`:
negative indices count from the end (clamped at 0), non-negative indices
are used as-is (`List.take`/`List.drop` clamp at `n` like Python does). -/
def pyIndexNorm (n : Nat) (i : Int) : Nat :=
  if i < 0 then ((n : Int) + i).toNat else i.toNat

/-- Python `l[:i]`. -/
def pySliceTo (l : List α) (i : Int) : List α :=
  l.take (pyIndexNorm l.length i)

/-- Python `l[i:]`. -/
def pySliceFrom (l : List α) (i : Int) : List α :=
  l.drop (pyIndexNorm l.length i)

/-- The second half of `get_signature` (source lines 195-211): from a
resolved function's `__code__`/`__defaults__`, build the `Signature`.
`parameters = co_varnames[:co_argcount]`; if `__defaults__ is None` then
`optional = {}` and `required = parameters[:len(parameters)]`; otherwise
`nrequired = -len(values)`, `optional = dict(zip(parameters[nrequired:],
values))` and `required = parameters[:nrequired]`. -/
def signature_from_function (function : FuncObj) : Signature :=
  let code := function.code
  let parameters := pySliceTo code.co_varnames (code.co_argcount : Int)
  match function.defaults with
  | Option.none =>
    let required := pySliceTo parameters (parameters.length : Int)
    ⟨parameters, required, []⟩
  | some values =>
    let nrequired : Int := -(values.length : Int)
    let keys := pySliceFrom parameters nrequired
    let optional := keys.zip values
    let required := pySliceTo parameters nrequired
    ⟨parameters, required, optional⟩

/-- The source's `get_signature`: resolve the input to a function via the
dispatch chain (own `__code__`; else class with code-bearing `__init__`,
else code-bearing `__new__`, else the empty signature; else `__call__`;
else raise `CantUseThis(function)`), then read its code object.  On the
`__call__` path the source reads `function.__code__` without a `hascode`
guard, so a code-less `__call__` raises `AttributeError`. -/
def get_signature (function : PyObj) : Except PyError Signature :=
  match function with
  | .withCode f => .ok (signature_from_function f)
  | .classy init new =>
    match init with
    | some (.hasCode f) => .ok (signature_from_function f)
    | _ =>
      match new with
      | some (.hasCode f) => .ok (signature_from_function f)
      | _ => .ok ⟨[], [], []⟩
  | .withCall call =>
    match call with
    | .hasCode f => .ok (signature_from_function f)
    | .noCode _ => .error (.attributeError "__code__")
  | .plain v => .error (.cantUseThis (.plain v))

/-- The body of the resolver loop for one parameter: the value from
`available` if the name is a key there, else the declared default if the
name is a key of `optional`, else absent (`missing` in the source). -/
def resolveValue (available optional : List (String × Value)) (name : String) :
    Option Value :=
  if (dget available name).isSome then dget available name
  else if (dget optional name).isSome then dget optional name
  else Option.none

/-- The resolver's `for name in signature.parameters` loop: names are
processed left to right, a resolved value is appended to `as_args` and
bound in `as_kwargs`, an absent one is skipped. -/
def resolveLoop (available optional : List (String × Value)) :
    List String → List Value × List (String × Value)
  | [] => ([], [])
  | name :: rest =>
    match resolveValue available optional name with
    | some value =>
      let (as_args, as_kwargs) := resolveLoop available optional rest
      (value :: as_args, (name, value) :: as_kwargs)
    | Option.none => resolveLoop available optional rest

/-- Resolution once a `Signature` is in hand (the part of
`resolve_dependencies` after the `isinstance` dispatch). -/
def resolveSig (signature : Signature) (available : List (String × Value)) :
    Dependencies :=
  let (as_args, as_kwargs) := resolveLoop available signature.optional signature.parameters
  ⟨as_args, as_kwargs, signature⟩

/-- The first argument of `resolve_dependencies`: either an
already-computed `Signature` (the `isinstance(_, _Signature)` branch) or
a raw object to be passed to `get_signature`. -/
inductive FunctionOrSignature where
  | sig (s : Signature)
  | obj (o : PyObj)
deriving Repr

/-- The source's `resolve_dependencies`: obtain the signature (skipping
extraction when one was passed in), then run the resolver loop.  An
exception from `get_signature` propagates unchanged. -/
def resolve_dependencies (function_or_signature : FunctionOrSignature)
    (available : List (String × Value)) : Except PyError Dependencies :=
  match function_or_signature with
  | .sig signature => .ok (resolveSig signature available)
  | .obj function =>
    match get_signature function with
    | .ok signature => .ok (resolveSig signature available)
    | .error e => .error e

/-- The spec's inclusion criterion for a parameter: its name is a key of
the availability mapping, or it has a declared default in `optional`. -/
def includedNames (signature : Signature) (available : List (String × Value)) :
    List String :=
  signature.parameters.filter
    (fun n => (dget available n).isSome || (dget signature.optional n).isSome)

/-- The data-model invariant of §3: `parameters` is `required` followed
by the keys of `optional`, in order. -/
def sigInvariant (s : Signature) : Prop :=
  s.parameters = s.required ++ s.optional.map Prod.fst

instance (s : Signature) : Decidable (sigInvariant s) := by
  unfold sigInvariant; infer_instance

theorem resolveLoop_eq (available optional : List (String × Value))
    (params : List String) :
    resolveLoop available optional params =
      (params.filterMap (resolveValue available optional),
       params.filterMap
         (fun n => (resolveValue available optional n).map (fun v => (n, v)))) := by
  induction params with
  | nil => rfl
  | cons p rest ih =>
    simp only [resolveLoop, List.filterMap_cons]
    cases h : resolveValue available optional p <;> simp [h, ih]

theorem dget_filterMap (g : String → Option Value) (params : List String)
    (name : String) :
    dget (params.filterMap (fun n => (g n).map (fun v => (n, v)))) name =
      if name ∈ params then g name else Option.none := by
  induction params with
  | nil => simp [dget]
  | cons p rest ih =>
    simp only [List.filterMap_cons]
    cases hp : g p with
    | none =>
      simp only [Option.map_none']
      rw [ih]
      by_cases hnp : name = p
      · subst hnp
        by_cases hmem : name ∈ rest <;> simp [hmem, hp]
      · by_cases hmem : name ∈ rest <;> simp [hmem, hnp]
    | some w =>
      simp only [Option.map_some']
      simp only [dget]
      rw [ih]
      by_cases hmem : name ∈ rest
      · cases hgn : g name with
        | some v => simp [hmem, hgn]
        | none =>
          have hnp : name ≠ p := by
            intro h
            rw [h, hp] at hgn
            cases hgn
          simp [hmem, hgn, hnp]
      · by_cases hnp : name = p
        · subst hnp
          simp [hmem, hp]
        · simp [hmem, hnp]

theorem map_fst_filterMap (g : String → Option Value) (params : List String) :
    (params.filterMap (fun n => (g n).map (fun v => (n, v)))).map Prod.fst =
      params.filter (fun n => (g n).isSome) := by
  induction params with
  | nil => rfl
  | cons p rest ih =>
    simp only [List.filterMap_cons, List.filter_cons]
    cases hp : g p <;> simp [ih]

theorem map_snd_filterMap (g : String → Option Value) (params : List String) :
    (params.filterMap (fun n => (g n).map (fun v => (n, v)))).map Prod.snd =
      params.filterMap g := by
  induction params with
  | nil => rfl
  | cons p rest ih =>
    simp only [List.filterMap_cons]
    cases hp : g p <;> simp [ih]

theorem resolveValue_isSome (available optional : List (String × Value))
    (name : String) :
    (resolveValue available optional name).isSome =
      ((dget available name).isSome || (dget optional name).isSome) := by
  unfold resolveValue
  cases ha : dget available name <;> cases ho : dget optional name <;> simp [ha, ho]

theorem resolveSig_as_kwargs (signature : Signature)
    (available : List (String × Value)) :
    (resolveSig signature available).as_kwargs =
      signature.parameters.filterMap
        (fun n => (resolveValue available signature.optional n).map (fun v => (n, v))) := by
  unfold resolveSig
  rw [resolveLoop_eq]

theorem resolveSig_as_args (signature : Signature)
    (available : List (String × Value)) :
    (resolveSig signature available).as_args =
      signature.parameters.filterMap (resolveValue available signature.optional) := by
  unfold resolveSig
  rw [resolveLoop_eq]

theorem resolveSig_keys (signature : Signature)
    (available : List (String × Value)) :
    (resolveSig signature available).as_kwargs.map Prod.fst =
      includedNames signature available := by
  rw [resolveSig_as_kwargs, map_fst_filterMap]
  unfold includedNames
  apply List.filter_congr
  intro n _
  rw [resolveValue_isSome]

theorem filterMap_filter_ne (g : String → Option Value) (name : String)
    (hg : g name = Option.none) (params : List String) :
    params.filterMap g = (params.filter (fun m => m != name)).filterMap g := by
  induction params with
  | nil => rfl
  | cons p rest ih =>
    by_cases hp : p = name
    · subst hp
      simp [List.filter_cons, List.filterMap_cons, hg, ih]
    · simp [List.filter_cons, List.filterMap_cons, hp, ih]

theorem pyIndexNorm_cast (n m : Nat) : pyIndexNorm n (m : Int) = m := by
  unfold pyIndexNorm
  rw [if_neg (by omega)]
  omega

theorem pyIndexNorm_negNat (n K : Nat) (h : 0 < K) :
    pyIndexNorm n (-(K : Int)) = n - K := by
  unfold pyIndexNorm
  rw [if_pos (by omega)]
  omega

theorem pySliceTo_length (l : List α) : pySliceTo l (l.length : Int) = l := by
  unfold pySliceTo
  rw [pyIndexNorm_cast, List.take_length]

theorem pySliceTo_append (l1 l2 : List α) :
    pySliceTo (l1 ++ l2) (l1.length : Int) = l1 := by
  unfold pySliceTo
  rw [pyIndexNorm_cast]
  exact List.take_left l1 l2

/-- A function's `__defaults__` is `None` or a nonempty tuple, as a `def`
statement always produces (an empty tuple is only reachable by mutating
`__defaults__` by hand). -/
def defaults_wellformed (f : FuncObj) : Bool :=
  match f.defaults with
  | some [] => false
  | _ => true

/-- The function that `get_signature`'s dispatch chain would actually
inspect for this input, if any, has well-formed `__defaults__`. -/
def extracted_defaults_wellformed : PyObj → Bool
  | .withCode f => defaults_wellformed f
  | .classy init new =>
    match init with
    | some (.hasCode f) => defaults_wellformed f
    | _ =>
      match new with
      | some (.hasCode f) => defaults_wellformed f
      | _ => true
  | .withCall (.hasCode f) => defaults_wellformed f
  | .withCall (.noCode _) => true
  | .plain _ => true

/-- The input's `__call__` attribute, when there is one, carries a code
object (true of every `__call__` defined by a `def` in a class body). -/
def call_attribute_has_code : PyObj → Bool
  | .withCall (.noCode _) => false
  | _ => true

/-- An `__init__`/`__new__` attribute passes the source's
`hasattr(cls, a) and hascode(getattr(cls, a))` test. -/
def attribute_has_code : Option PyAttr → Bool
  | some (.hasCode _) => true
  | _ => false

theorem sigInvariant_from_function (f : FuncObj)
    (h : defaults_wellformed f = true) :
    sigInvariant (signature_from_function f) := by
  unfold sigInvariant signature_from_function
  cases hd : f.defaults with
  | none =>
    simp [pySliceTo_length]
  | some vs =>
    have hvs : 0 < vs.length := by
      cases vs with
      | nil => rw [defaults_wellformed, hd] at h; cases h
      | cons a l => simp
    set parameters := pySliceTo f.code.co_varnames (Int.ofNat f.code.co_argcount) with hp
    simp only [pySliceTo, pySliceFrom, pyIndexNorm_negNat _ _ hvs]
    rw [List.map_fst_zip]
    · exact (List.take_append_drop _ _).symm
    · rw [List.length_drop]
      omega

/-- C1: for every signature and every availability mapping, the
resolution produced by `resolve_dependencies` has `positional`
(`as_args`) and `named` (`as_kwargs`) containing exactly the same
parameters: the keys of `as_kwargs`, in order, are precisely the
parameters of the signature (in `signature.parameters` order) whose name
is a key of `available` or of `signature.optional`, and `as_args` is the
corresponding value sequence. -/
theorem c1_resolution_invariant (signature : Signature)
    (available : List (String × Value)) :
    ∃ r, resolve_dependencies (.sig signature) available = .ok r ∧
      r.as_kwargs.map Prod.fst = includedNames signature available ∧
      r.as_args = r.as_kwargs.map Prod.snd := by
  refine ⟨resolveSig signature available, rfl, resolveSig_keys _ _, ?_⟩
  rw [resolveSig_as_args, resolveSig_as_kwargs, map_snd_filterMap]

/-- C4: whenever a parameter's name is a key of the availability mapping,
resolution binds that parameter to the mapping's value — whatever the
value is, `Value.none` included, and whether or not the parameter also
has a declared default. -/
theorem c4_presence_precedence (signature : Signature)
    (available : List (String × Value)) (name : String) (v : Value)
    (hmem : name ∈ signature.parameters)
    (hav : dget available name = some v) :
    ∃ r, resolve_dependencies (.sig signature) available = .ok r ∧
      dget r.as_kwargs name = some v ∧ v ∈ r.as_args := by
  have hrv : resolveValue available signature.optional name = some v := by
    unfold resolveValue
    rw [hav]
    simp
  refine ⟨resolveSig signature available, rfl, ?_, ?_⟩
  · rw [resolveSig_as_kwargs, dget_filterMap, if_pos hmem, hrv]
  · rw [resolveSig_as_args]
    exact List.mem_filterMap.mpr ⟨name, hmem, hrv⟩

/-- C5: a parameter name that is neither a key of the availability
mapping nor a key of `signature.optional` is omitted from both `named`
(no binding for it in `as_kwargs`) and `positional` (`as_args` is built
from the other parameters only), and resolution still returns normally. -/
theorem c5_missing_required_is_skipped (signature : Signature)
    (available : List (String × Value)) (name : String)
    (h1 : dget available name = Option.none)
    (h2 : dget signature.optional name = Option.none) :
    ∃ r, resolve_dependencies (.sig signature) available = .ok r ∧
      name ∉ r.as_kwargs.map Prod.fst ∧
      dget r.as_kwargs name = Option.none ∧
      r.as_args = (signature.parameters.filter (fun m => m != name)).filterMap
        (resolveValue available signature.optional) := by
  have hrv : resolveValue available signature.optional name = Option.none := by
    unfold resolveValue
    rw [h1, h2]
    simp
  refine ⟨resolveSig signature available, rfl, ?_, ?_, ?_⟩
  · rw [resolveSig_keys]
    unfold includedNames
    simp [List.mem_filter, h1, h2]
  · rw [resolveSig_as_kwargs, dget_filterMap, hrv, ite_self]
  · rw [resolveSig_as_args]
    exact filterMap_filter_ne _ _ hrv _

/-- C6: an input with no code object, that is not a class and has no
`__call__` attribute, makes `get_signature` raise `CantUseThis` carrying
the offending object, and `resolve_dependencies` propagates exactly that
error. -/
theorem c6_unsupported_callable (v : Value) (available : List (String × Value)) :
    get_signature (.plain v) = .error (.cantUseThis (.plain v)) ∧
    resolve_dependencies (.obj (.plain v)) available =
      .error (.cantUseThis (.plain v)) :=
  ⟨rfl, rfl⟩

/-- C9: for a callable whose signature extraction succeeds, resolving the
raw callable and resolving its pre-computed signature produce identical
results (same `as_args`, `as_kwargs` and `signature` components). -/
theorem c9_precomputed_signature_equivalent (f : PyObj) (s : Signature)
    (available : List (String × Value))
    (h : get_signature f = .ok s) :
    resolve_dependencies (.obj f) available =
      resolve_dependencies (.sig s) available := by
  simp [resolve_dependencies, h]

/-- C10: resolution of an already-computed `Signature` always returns
normally; no extraction happens, so no error can be raised on this
path. -/
theorem c10_signature_path_never_raises (s : Signature)
    (available : List (String × Value)) :
    resolve_dependencies (.sig s) available = .ok (resolveSig s available) :=
  rfl

/-- C2: for a function with parameter list `params` (plus possible local
variables in `co_varnames`) of which the trailing `K` carry declared
defaults (`__defaults__` is `None` when `K = 0`, else a tuple of length
`K ≤ |params|`), `get_signature` returns all of `params` in order, the
first `|params| - K` of them as `required`, and as `optional` the K
trailing names paired positionally with the K default values. -/
theorem c2_signature_extraction (params locals : List String)
    (dfl : Option (List Value)) (K : Nat)
    (hK : (dfl = Option.none ∧ K = 0) ∨
      ∃ vs, dfl = some vs ∧ vs.length = K ∧ 0 < K)
    (hKn : K ≤ params.length) :
    get_signature (.withCode ⟨⟨params ++ locals, params.length⟩, dfl⟩) =
      .ok ⟨params, params.take (params.length - K),
        (params.drop (params.length - K)).zip (dfl.getD [])⟩ := by
  have hparams : pySliceTo (params ++ locals) (params.length : Int) = params :=
    pySliceTo_append params locals
  rcases hK with ⟨hdfl, hK0⟩ | ⟨vs, hdfl, hlen, hpos⟩ <;> subst hdfl
  · subst hK0
    simp only [get_signature, signature_from_function]
    rw [hparams, pySliceTo_length]
    simp [List.drop_length]
  · subst hlen
    simp only [get_signature, signature_from_function]
    rw [hparams]
    simp only [pySliceTo, pySliceFrom, pyIndexNorm_negNat _ _ hpos,
      Option.getD_some]

/-- C3 counterexample: a function object with one parameter whose
`__defaults__` is the *empty* tuple (legal in Python, producible by
assigning `f.__defaults__ = ()`): `nrequired = -len(()) = 0`, so
`required = parameters[:0] = ()` and `optional = {}`, and `parameters`
is no longer `required` followed by the keys of `optional`. -/
theorem c3_counterexample :
    get_signature (.withCode ⟨⟨["a"], 1⟩, some []⟩) = .ok ⟨["a"], [], []⟩ ∧
    ¬ sigInvariant ⟨["a"], [], []⟩ :=
  ⟨rfl, by decide⟩

/-- C3 (amended): every signature `get_signature` returns satisfies
`parameters = required ++ keys of optional`, provided the function the
dispatch chain inspects does not have an empty `__defaults__` tuple
(always true of `def`-produced callables, whose `__defaults__` is `None`
or nonempty); in particular a directly-passed function with
`__defaults__ = None` yields empty `optional` and `required` equal to
`parameters`. -/
theorem c3_signature_invariant (obj : PyObj) (s : Signature)
    (hwf : extracted_defaults_wellformed obj = true)
    (hok : get_signature obj = .ok s) :
    sigInvariant s ∧
    ∀ f, obj = PyObj.withCode f → f.defaults = Option.none →
      s.optional = [] ∧ s.required = s.parameters := by
  have hempty : sigInvariant (⟨[], [], []⟩ : Signature) := by decide
  cases obj with
  | withCode f =>
    cases hok
    refine ⟨sigInvariant_from_function f hwf, ?_⟩
    rintro f' hf' hdfl
    cases hf'
    constructor
    · simp [signature_from_function, hdfl]
    · simp [signature_from_function, hdfl, pySliceTo_length]
  | classy init new =>
    have hvac : ∀ f, PyObj.classy init new = PyObj.withCode f →
        f.defaults = Option.none →
        s.optional = [] ∧ s.required = s.parameters := by
      intro f hf
      exact absurd hf (by simp)
    rcases init with _ | ⟨f | v⟩
    · rcases new with _ | ⟨f | v⟩
      · cases hok
        exact ⟨hempty, hvac⟩
      · cases hok
        exact ⟨sigInvariant_from_function f hwf, hvac⟩
      · cases hok
        exact ⟨hempty, hvac⟩
    · cases hok
      exact ⟨sigInvariant_from_function f hwf, hvac⟩
    · rcases new with _ | ⟨f | v'⟩
      · cases hok
        exact ⟨hempty, hvac⟩
      · cases hok
        exact ⟨sigInvariant_from_function f hwf, hvac⟩
      · cases hok
        exact ⟨hempty, hvac⟩
  | withCall call =>
    cases call with
    | hasCode f =>
      cases hok
      refine ⟨sigInvariant_from_function f hwf, ?_⟩
      intro f' hf'
      exact absurd hf' (by simp)
    | noCode v => cases hok
  | plain v => cases hok

/-- C7 counterexample: an object with no code object that is not a class
but has a `__call__` attribute which itself carries no code object (for
example any builtin, whose `__call__` is a method-wrapper): the source
reads `function.__call__.__code__` unguarded, so `AttributeError` — a
second error kind, distinct from `CantUseThis` — escapes
`get_signature`. -/
theorem c7_counterexample :
    get_signature (.withCall (.noCode Value.none)) =
      .error (.attributeError "__code__") ∧
    ∀ obj, PyError.attributeError "__code__" ≠ PyError.cantUseThis obj :=
  ⟨rfl, fun _ h => PyError.noConfusion h⟩

/-- C7 (amended): for every input whose `__call__` attribute (when the
input has one) carries a code object, `CantUseThis` is the only error:
`get_signature` either succeeds — and then `resolve_dependencies`
completes as normal control flow, whatever `available` holds — or raises
`CantUseThis` carrying the input, which the resolver propagates
unchanged. -/
theorem c7_single_error_kind (f : PyObj) (available : List (String × Value))
    (h : call_attribute_has_code f = true) :
    (∃ s, get_signature f = .ok s ∧
      resolve_dependencies (.obj f) available = .ok (resolveSig s available)) ∨
    (get_signature f = .error (.cantUseThis f) ∧
      resolve_dependencies (.obj f) available = .error (.cantUseThis f)) := by
  cases f with
  | withCode f' => exact .inl ⟨_, rfl, rfl⟩
  | classy init new =>
    rcases init with _ | ⟨f' | v⟩ <;> rcases new with _ | ⟨f'' | v'⟩ <;>
      exact .inl ⟨_, rfl, rfl⟩
  | withCall call =>
    cases call with
    | hasCode f' => exact .inl ⟨_, rfl, rfl⟩
    | noCode v => cases h
  | plain v => exact .inr ⟨rfl, rfl⟩

/-- C8: a class neither of whose `__init__` and `__new__` attributes
passes the `hascode` test (no custom constructor) gets the all-empty
signature, and resolving it against any availability mapping yields
empty `as_args` and `as_kwargs`. -/
theorem c8_class_without_constructor (init new : Option PyAttr)
    (available : List (String × Value))
    (hi : attribute_has_code init = false)
    (hn : attribute_has_code new = false) :
    get_signature (.classy init new) = .ok ⟨[], [], []⟩ ∧
    resolve_dependencies (.obj (.classy init new)) available =
      .ok ⟨[], [], ⟨[], [], []⟩⟩ := by
  rcases init with _ | ⟨f | v⟩
  · rcases new with _ | ⟨f | v⟩
    · exact ⟨rfl, rfl⟩
    · cases hn
    · exact ⟨rfl, rfl⟩
  · cases hi
  · rcases new with _ | ⟨f | v'⟩
    · exact ⟨rfl, rfl⟩
    · cases hn
    · exact ⟨rfl, rfl⟩

/-- Witness for C2, at the spec's own example `(a, b, c=3)` (with a local
variable `x` in `co_varnames` to show it is ignored). -/
theorem c2_signature_extraction_witness :
    ((some [Value.int 3] : Option (List Value)) = Option.none ∧ 1 = 0 ∨
      ∃ vs, (some [Value.int 3] : Option (List Value)) = some vs ∧
        vs.length = 1 ∧ 0 < 1) ∧
    1 ≤ (["a", "b", "c"] : List String).length ∧
    get_signature (.withCode ⟨⟨["a", "b", "c"] ++ ["x"], 3⟩, some [Value.int 3]⟩) =
      .ok ⟨["a", "b", "c"], ["a", "b"], [("c", Value.int 3)]⟩ :=
  ⟨.inr ⟨[Value.int 3], rfl, rfl, Nat.one_pos⟩, by decide,
    c2_signature_extraction ["a", "b", "c"] ["x"] (some [Value.int 3]) 1
      (.inr ⟨[Value.int 3], rfl, rfl, Nat.one_pos⟩) (by decide)⟩

/-- Witness for the amended C3, at the docstring's example `(bar, baz=1)`
shape. -/
theorem c3_signature_invariant_witness :
    extracted_defaults_wellformed
      (.withCode ⟨⟨["a", "b"], 2⟩, some [Value.int 3]⟩) = true ∧
    get_signature (.withCode ⟨⟨["a", "b"], 2⟩, some [Value.int 3]⟩) =
      .ok ⟨["a", "b"], ["a"], [("b", Value.int 3)]⟩ ∧
    (sigInvariant ⟨["a", "b"], ["a"], [("b", Value.int 3)]⟩ ∧
      ∀ f, (PyObj.withCode ⟨⟨["a", "b"], 2⟩, some [Value.int 3]⟩ : PyObj) =
          PyObj.withCode f →
        f.defaults = Option.none →
        (⟨["a", "b"], ["a"], [("b", Value.int 3)]⟩ : Signature).optional = [] ∧
        (⟨["a", "b"], ["a"], [("b", Value.int 3)]⟩ : Signature).required =
          (⟨["a", "b"], ["a"], [("b", Value.int 3)]⟩ : Signature).parameters) :=
  ⟨rfl, rfl, c3_signature_invariant _ _ rfl rfl⟩

/-- Witness for C4, at the spec's presence-precedence example:
`available = {bar: None}` against optional `bar=False` resolves `bar` to
`None`. -/
theorem c4_presence_precedence_witness :
    "bar" ∈ (⟨["bar"], [], [("bar", Value.bool false)]⟩ : Signature).parameters ∧
    dget [("bar", Value.none)] "bar" = some Value.none ∧
    ∃ r, resolve_dependencies (.sig ⟨["bar"], [], [("bar", Value.bool false)]⟩)
        [("bar", Value.none)] = .ok r ∧
      dget r.as_kwargs "bar" = some Value.none ∧ Value.none ∈ r.as_args :=
  ⟨by decide, rfl,
    c4_presence_precedence ⟨["bar"], [], [("bar", Value.bool false)]⟩
      [("bar", Value.none)] "bar" Value.none (by decide) rfl⟩

/-- Witness for C5, at the spec's permissiveness example: `(foo, bar)`
with `available = {foo: 1}` resolves without error and skips `bar`. -/
theorem c5_missing_required_is_skipped_witness :
    dget [("foo", Value.int 1)] "bar" = Option.none ∧
    dget (⟨["foo", "bar"], ["foo", "bar"], []⟩ : Signature).optional "bar" =
      Option.none ∧
    ∃ r, resolve_dependencies (.sig ⟨["foo", "bar"], ["foo", "bar"], []⟩)
        [("foo", Value.int 1)] = .ok r ∧
      "bar" ∉ r.as_kwargs.map Prod.fst ∧
      dget r.as_kwargs "bar" = Option.none ∧
      r.as_args = (((⟨["foo", "bar"], ["foo", "bar"], []⟩ : Signature).parameters.filter
          (fun m => m != "bar")).filterMap
        (resolveValue [("foo", Value.int 1)]
          (⟨["foo", "bar"], ["foo", "bar"], []⟩ : Signature).optional)) :=
  ⟨rfl, rfl,
    c5_missing_required_is_skipped ⟨["foo", "bar"], ["foo", "bar"], []⟩
      [("foo", Value.int 1)] "bar" rfl rfl⟩

/-- Witness for the amended C7, at a plain non-callable input (no
`__call__` attribute at all, so the side condition holds trivially). -/
theorem c7_single_error_kind_witness :
    call_attribute_has_code (.plain Value.none) = true ∧
    ((∃ s, get_signature (.plain Value.none) = .ok s ∧
        resolve_dependencies (.obj (.plain Value.none)) [] =
          .ok (resolveSig s [])) ∨
      (get_signature (.plain Value.none) =
          .error (.cantUseThis (.plain Value.none)) ∧
        resolve_dependencies (.obj (.plain Value.none)) [] =
          .error (.cantUseThis (.plain Value.none)))) :=
  ⟨rfl, c7_single_error_kind (.plain Value.none) [] rfl⟩

/-- Witness for C8: a class whose `__init__` attribute has no code and
with no `__new__` attribute, resolved against a nonempty availability
mapping. -/
theorem c8_class_without_constructor_witness :
    attribute_has_code (some (PyAttr.noCode Value.none)) = false ∧
    attribute_has_code Option.none = false ∧
    (get_signature (.classy (some (.noCode Value.none)) Option.none) =
        .ok ⟨[], [], []⟩ ∧
      resolve_dependencies (.obj (.classy (some (.noCode Value.none)) Option.none))
          [("x", Value.int 5)] = .ok ⟨[], [], ⟨[], [], []⟩⟩) :=
  ⟨rfl, rfl,
    c8_class_without_constructor (some (.noCode Value.none)) Option.none
      [("x", Value.int 5)] rfl rfl⟩

/-- Witness for C9, at the docstring's `foo(bar, baz)` example. -/
theorem c9_precomputed_signature_equivalent_witness :
    get_signature (.withCode ⟨⟨["bar", "baz"], 2⟩, Option.none⟩) =
      .ok ⟨["bar", "baz"], ["bar", "baz"], []⟩ ∧
    resolve_dependencies (.obj (.withCode ⟨⟨["bar", "baz"], 2⟩, Option.none⟩))
        [("bar", Value.int 1), ("baz", Value.int 2)] =
      resolve_dependencies (.sig ⟨["bar", "baz"], ["bar", "baz"], []⟩)
        [("bar", Value.int 1), ("baz", Value.int 2)] :=
  ⟨rfl,
    c9_precomputed_signature_equivalent
      (.withCode ⟨⟨["bar", "baz"], 2⟩, Option.none⟩)
      ⟨["bar", "baz"], ["bar", "baz"], []⟩
      [("bar", Value.int 1), ("baz", Value.int 2)] rfl⟩

-- Sanity checks mirroring tests.py: mixed arg/kwarg extraction, a
-- default honoured next to a missing parameter, and the empty-defaults
-- corner the test suite does not cover.
example :
    get_signature (.withCode ⟨⟨["foo", "bar", "baz"], 3⟩, some [.str "buz"]⟩) =
      .ok ⟨["foo", "bar", "baz"], ["foo", "bar"], [("baz", .str "buz")]⟩ := rfl

example :
    resolve_dependencies (.obj (.withCode ⟨⟨["foo", "bar", "blah"], 2⟩, some [.none]⟩))
        [("foo", .int 1)] =
      .ok ⟨[.int 1, .none], [("foo", .int 1), ("bar", .none)], ⟨["foo", "bar"], ["foo"], [("bar", .none)]⟩⟩ := rfl

example :
    get_signature (.withCode ⟨⟨["a"], 1⟩, some []⟩) = .ok ⟨["a"], [], []⟩ := rfl
